import Mathlib

/-!
Shallow embedding of the network command module
(`src/azure-cli/azure/cli/command_modules/network/custom.py`) together with
theorems about the command handlers.  Each handler is translated from the
Python source; helpers that live in `azure.cli.core` (outside the embedded
file) are modelled from the specification and marked as such in their doc
comments.
-/

namespace AzCliNetwork

/-! ## Application gateway sub-resources (C1, C2, C3) -/

/-- The `ApplicationGatewayAuthenticationCertificate` SDK model: the fields the
handler sets (`name`, `data`). -/
structure AuthCert where
  name : String
  data : String
deriving DecidableEq, Repr

/-- The `ApplicationGatewayBackendAddressPool` SDK model: the fields the handler
sets (`name`, `backend_addresses`). -/
structure BackendPool where
  name : String
  backend_addresses : Option (List String)
deriving DecidableEq, Repr

/-- The `ApplicationGateway` SDK model as fetched by
`ncf.application_gateways.get`: the two collections the embedded handlers
edit, plus the other top-level fields (carried opaquely) that the frame
claim C2 is about. -/
structure ApplicationGateway where
  sku : String
  location : Option String
  tags : Option String
  gateway_ip_configurations : List String
  frontend_ip_configurations : List String
  frontend_ports : List String
  probes : List String
  backend_http_settings_collection : List String
  http_listeners : List String
  request_routing_rules : List String
  ssl_certificates : List String
  web_application_firewall_configuration : Option String
  authentication_certificates : List AuthCert
  backend_address_pools : List BackendPool
deriving DecidableEq, Repr

/-- Modelled from the spec: `upsert_to_collection` (imported from
`azure.cli.core.commands`, not part of the embedded file) realises the
"find-or-replace-by-name semantics" the spec ascribes to sub-resource
collections — any prior element carrying the new object's key is replaced
by the new object, all other elements are kept. -/
def upsert_to_collection (collection : List α) (key : α → String) (obj : α) :
    List α :=
  collection.filter (fun x => key x != key obj) ++ [obj]

/-- Description of one SDK create-or-update invocation: the request payload
handed to the operation and whether the long-running operation is awaited. -/
structure SdkCall (β : Type) where
  payload : β
  wait_for_completion : Bool
deriving DecidableEq, Repr

/-- Modelled from the spec: `sdk_no_wait` (imported from
`azure.cli.core.util`, not part of the embedded file) invokes the operation
on the given payload either way; the spec says the no-wait escape hatch
merely "returns the poller/future immediately" instead of polling. -/
def sdk_no_wait (no_wait : Bool) (payload : β) : SdkCall β :=
  ⟨payload, !no_wait⟩

/-- Arguments of `begin_create_or_update` on application gateways. -/
structure AgRequest where
  resource_group_name : String
  application_gateway_name : String
  resource : ApplicationGateway
deriving DecidableEq, Repr

/-- The `create_ag_authentication_certificate`: fetch the gateway (here: the
`ag` argument stands for the result of `ncf.get`), upsert the new
certificate into `authentication_certificates`, resubmit. -/
def create_ag_authentication_certificate (resource_group_name : String)
    (application_gateway_name : String) (item_name : String)
    (cert_data : String) (ag : ApplicationGateway) (no_wait : Bool) :
    SdkCall AgRequest :=
  let new_cert : AuthCert := { data := cert_data, name := item_name }
  let ag' := { ag with authentication_certificates :=
      upsert_to_collection ag.authentication_certificates AuthCert.name new_cert }
  sdk_no_wait no_wait ⟨resource_group_name, application_gateway_name, ag'⟩

/-- The `create_ag_backend_address_pool`: fetch the gateway (the `ag` argument
stands for the result of `ncf.application_gateways.get`), upsert the new
pool into `backend_address_pools`, resubmit. -/
def create_ag_backend_address_pool (resource_group_name : String)
    (application_gateway_name : String) (item_name : String)
    (servers : Option (List String)) (ag : ApplicationGateway)
    (no_wait : Bool) : SdkCall AgRequest :=
  let new_pool : BackendPool := { name := item_name, backend_addresses := servers }
  let ag' := { ag with backend_address_pools :=
      upsert_to_collection ag.backend_address_pools BackendPool.name new_pool }
  sdk_no_wait no_wait ⟨resource_group_name, application_gateway_name, ag'⟩

/-! ### Theorems for C1–C3 -/

theorem upsert_filter_key_eq (collection : List α) (key : α → String) (obj : α) :
    (upsert_to_collection collection key obj).filter
      (fun x => key x == key obj) = [obj] := by
  unfold upsert_to_collection
  rw [List.filter_append]
  have h1 : ((collection.filter fun x => key x != key obj).filter
      fun x => key x == key obj) = [] := by
    rw [List.filter_filter]
    apply List.filter_eq_nil_iff.mpr
    intro a _
    by_cases h : key a = key obj <;> simp [h]
  rw [h1]
  simp

theorem upsert_filter_key_ne (collection : List α) (key : α → String) (obj : α) :
    (upsert_to_collection collection key obj).filter
      (fun x => key x != key obj) =
    collection.filter (fun x => key x != key obj) := by
  unfold upsert_to_collection
  rw [List.filter_append, List.filter_filter]
  have h2 : (List.filter (fun x => key x != key obj) [obj]) = [] := by
    simp
  rw [h2, List.append_nil]
  congr 1
  funext a
  by_cases h : key a = key obj <;> simp [h]

/-- C1: after `create_ag_authentication_certificate`, the gateway's
`authentication_certificates` collection contains exactly one element named
`item_name`, and it carries `cert_data`; every element with a different
name is exactly as in the fetched gateway (same elements, same order). -/
theorem create_ag_authentication_certificate_find_or_replace
    (rg agname item_name cert_data : String) (ag : ApplicationGateway)
    (no_wait : Bool) :
    ((create_ag_authentication_certificate rg agname item_name cert_data ag
        no_wait).payload.resource.authentication_certificates.filter
        (fun c => c.name == item_name) =
      [{ name := item_name, data := cert_data }]) ∧
    ((create_ag_authentication_certificate rg agname item_name cert_data ag
        no_wait).payload.resource.authentication_certificates.filter
        (fun c => c.name != item_name) =
      ag.authentication_certificates.filter (fun c => c.name != item_name)) := by
  constructor
  · exact upsert_filter_key_eq ag.authentication_certificates AuthCert.name
      { name := item_name, data := cert_data }
  · exact upsert_filter_key_ne ag.authentication_certificates AuthCert.name
      { name := item_name, data := cert_data }

/-- C2: the resource submitted by `create_ag_backend_address_pool` is the
fetched gateway with only `backend_address_pools` modified: every other
field of the submitted resource equals the corresponding field of the
fetched one. -/
theorem create_ag_backend_address_pool_frame (rg agname item_name : String)
    (servers : Option (List String)) (ag : ApplicationGateway)
    (no_wait : Bool) :
    let submitted := (create_ag_backend_address_pool rg agname item_name
        servers ag no_wait).payload.resource
    submitted.sku = ag.sku ∧
    submitted.location = ag.location ∧
    submitted.tags = ag.tags ∧
    submitted.gateway_ip_configurations = ag.gateway_ip_configurations ∧
    submitted.frontend_ip_configurations = ag.frontend_ip_configurations ∧
    submitted.frontend_ports = ag.frontend_ports ∧
    submitted.probes = ag.probes ∧
    submitted.backend_http_settings_collection =
      ag.backend_http_settings_collection ∧
    submitted.http_listeners = ag.http_listeners ∧
    submitted.request_routing_rules = ag.request_routing_rules ∧
    submitted.ssl_certificates = ag.ssl_certificates ∧
    submitted.web_application_firewall_configuration =
      ag.web_application_firewall_configuration ∧
    submitted.authentication_certificates = ag.authentication_certificates := by
  repeat constructor

/-- C3: the request payload `create_ag_authentication_certificate` passes to
the SDK create-or-update operation is identical whether `no_wait` is true or
false; `no_wait` only decides whether the long-running operation is
awaited. -/
theorem create_ag_authentication_certificate_no_wait_same_payload
    (rg agname item_name cert_data : String) (ag : ApplicationGateway) :
    ((create_ag_authentication_certificate rg agname item_name cert_data ag
        true).payload =
      (create_ag_authentication_certificate rg agname item_name cert_data ag
        false).payload) ∧
    ((create_ag_authentication_certificate rg agname item_name cert_data ag
        true).wait_for_completion = false) ∧
    ((create_ag_authentication_certificate rg agname item_name cert_data ag
        false).wait_for_completion = true) := by
  exact ⟨rfl, rfl, rfl⟩

/-! ## Default sub-resource lookup (C6) -/

/-- An element of a balancer's sub-resource collection, as consumed by
`_get_default_value` (only the `id` attribute is read). -/
structure SubResourceRef where
  id : String
deriving DecidableEq, Repr

/-- Failure modes of `_get_default_value`: the `CLIError` it raises itself,
and the Python `IndexError` produced by `values[0].rsplit('/', 1)[1]` when
the id holds no `'/'`. -/
inductive GetDefaultError where
  | cliError
  | indexError
deriving DecidableEq, Repr

/-- Python `s.rsplit(sep, 1)` on character lists: `[s]` when `sep` does not
occur in `s`, otherwise the part before and the part after the last
occurrence of `sep`. -/
def rsplitOnce (sep : Char) : List Char → List (List Char)
  | [] => [[]]
  | c :: rest =>
    match rsplitOnce sep rest with
    | [single] => if c = sep then [[], rest] else [c :: single]
    | before :: more => (c :: before) :: more
    | [] => []

/-- The `_get_default_value`: collect the `id` of every element of the named
collection (the `items` argument stands for `getattr(balancer,
property_name)`), fail on more than one or zero candidates, otherwise
return the single id — or the text after its last `'/'` when a name is
requested. -/
def _get_default_value (items : List SubResourceRef) (option_name : String)
    (return_name : Bool) : Except GetDefaultError String :=
  let values := items.map (fun x => x.id)
  if 1 < values.length then Except.error GetDefaultError.cliError
  else
    match values with
    | [] => Except.error GetDefaultError.cliError
    | v :: _ =>
      if return_name then
        match rsplitOnce '/' v.data with
        | _ :: name :: _ => Except.ok (String.mk name)
        | _ => Except.error GetDefaultError.indexError
      else Except.ok v

/-- The `_get_default_name` wrapper. -/
def _get_default_name (items : List SubResourceRef) (option_name : String) :
    Except GetDefaultError String :=
  _get_default_value items option_name true

/-- The `_get_default_id` wrapper. -/
def _get_default_id (items : List SubResourceRef) (option_name : String) :
    Except GetDefaultError String :=
  _get_default_value items option_name false

theorem rsplitOnce_not_mem (sep : Char) (s : List Char) (h : sep ∉ s) :
    rsplitOnce sep s = [s] := by
  induction s with
  | nil => rfl
  | cons c rest ih =>
    have hc : c ≠ sep := fun hcs => h (hcs ▸ List.mem_cons_self c rest)
    have hr : sep ∉ rest := fun hrs => h (List.mem_cons_of_mem c hrs)
    rw [rsplitOnce, ih hr]
    simp [hc]

theorem rsplitOnce_mem (sep : Char) (s : List Char) (h : sep ∈ s) :
    ∃ p n, rsplitOnce sep s = [p, n] ∧ s = p ++ sep :: n ∧ sep ∉ n := by
  induction s with
  | nil => cases h
  | cons c rest ih =>
    by_cases hr : sep ∈ rest
    · obtain ⟨p, n, heq, hsplit, hnot⟩ := ih hr
      refine ⟨c :: p, n, ?_, by rw [hsplit]; rfl, hnot⟩
      rw [rsplitOnce, heq]
    · have hc : c = sep := by
        rcases List.mem_cons.mp h with hcs | hmem
        · exact hcs.symm
        · exact absurd hmem hr
      refine ⟨[], rest, ?_, by rw [hc]; rfl, hr⟩
      rw [rsplitOnce, rsplitOnce_not_mem sep rest hr]
      simp [hc]

/-- C6: `_get_default_value` (hence both wrappers) raises `CLIError` when
the collection holds more than one element and when it is empty; on a
singleton, `_get_default_id` returns the element's id, and — whenever that
id holds a `'/'` — `_get_default_name` returns exactly the text after the
last `'/'` of the id. -/
theorem get_default_value_spec (items : List SubResourceRef)
    (option_name : String) (return_name : Bool) :
    (1 < items.length →
      _get_default_value items option_name return_name =
        Except.error GetDefaultError.cliError) ∧
    (items = [] →
      _get_default_value items option_name return_name =
        Except.error GetDefaultError.cliError) ∧
    (∀ x, items = [x] →
      _get_default_id items option_name = Except.ok x.id ∧
      ('/' ∈ x.id.data →
        ∃ name p, _get_default_name items option_name = Except.ok name ∧
          x.id.data = p ++ '/' :: name.data ∧ '/' ∉ name.data)) := by
  refine ⟨?_, ?_, ?_⟩
  · intro h
    unfold _get_default_value
    have hlen : 1 < (items.map (fun x => x.id)).length := by
      simpa using h
    simp only [hlen, if_pos]
  · intro h
    subst h
    rfl
  · intro x h
    subst h
    constructor
    · rfl
    · intro hmem
      obtain ⟨p, n, heq, hsplit, hnot⟩ := rsplitOnce_mem '/' x.id.data hmem
      refine ⟨String.mk n, p, ?_, by simpa using hsplit, by simpa using hnot⟩
      simp [_get_default_name, _get_default_value, heq]

/-- Witness for C6, at a two-element collection and at the singleton
collection whose sole id is `"providers/fe1"`. -/
theorem get_default_value_spec_witness :
    (_get_default_value [⟨"a"⟩, ⟨"b"⟩] "opt" true =
      Except.error GetDefaultError.cliError) ∧
    (∃ name p, _get_default_name [⟨"providers/fe1"⟩] "opt" = Except.ok name ∧
      (SubResourceRef.mk "providers/fe1").id.data = p ++ '/' :: name.data ∧
      '/' ∉ name.data) :=
  ⟨(get_default_value_spec [⟨"a"⟩, ⟨"b"⟩] "opt" true).1 (by decide),
   ((get_default_value_spec [⟨"providers/fe1"⟩] "opt" true).2.2
      ⟨"providers/fe1"⟩ rfl).2 (by decide)⟩

/-! ## TXT record chunking (C10) -/

/-- The while-loop of `add_dns_txt_record`: while more than 255 characters
remain, peel off a 255-character chunk; finally append the remainder.
Python strings are modelled as character lists. -/
def txtChunkLoop (long_text : List Char) : List (List Char) :=
  if 255 < long_text.length then
    long_text.take 255 :: txtChunkLoop (long_text.drop 255)
  else [long_text]
termination_by long_text.length
decreasing_by simp [List.length_drop]; omega

/-- The `add_dns_txt_record`, restricted to its rewrite of the record value:
join the given strings into `long_text` and re-chunk it. -/
def add_dns_txt_record_value (value : List (List Char)) : List (List Char) :=
  let long_text := value.flatten
  txtChunkLoop long_text

theorem txtChunkLoop_join (s : List Char) : (txtChunkLoop s).flatten = s := by
  induction s using txtChunkLoop.induct with
  | case1 s h ih =>
    rw [txtChunkLoop, if_pos h]
    simp [ih]
  | case2 s h =>
    rw [txtChunkLoop, if_neg h]
    simp

theorem txtChunkLoop_short (s : List Char) :
    ∀ chunk ∈ txtChunkLoop s, chunk.length ≤ 255 := by
  induction s using txtChunkLoop.induct with
  | case1 s h ih =>
    rw [txtChunkLoop, if_pos h]
    intro chunk hc
    rcases List.mem_cons.mp hc with hc | hc
    · subst hc
      simp
    · exact ih chunk hc
  | case2 s h =>
    rw [txtChunkLoop, if_neg h]
    intro chunk hc
    rcases List.mem_cons.mp hc with hc | hc
    · subst hc
      omega
    · cases hc

/-- C10: the value submitted by `add_dns_txt_record` consists of chunks of
at most 255 characters whose in-order concatenation equals the
concatenation of the original strings; in particular the function's
internal length assertion always holds. -/
theorem add_dns_txt_record_chunks (value : List (List Char)) :
    (∀ chunk ∈ add_dns_txt_record_value value, chunk.length ≤ 255) ∧
    (add_dns_txt_record_value value).flatten = value.flatten ∧
    ((add_dns_txt_record_value value).flatten.length = value.flatten.length) := by
  refine ⟨txtChunkLoop_short value.flatten, txtChunkLoop_join value.flatten, ?_⟩
  rw [add_dns_txt_record_value, txtChunkLoop_join]

/-- Witness for C10 at a concrete two-string value. -/
theorem add_dns_txt_record_chunks_witness :
    (add_dns_txt_record_value [['a', 'b'], ['c']]).flatten =
      [['a', 'b'], ['c']].flatten :=
  (add_dns_txt_record_chunks [['a', 'b'], ['c']]).2.1

/-! ## DNS record addition (C9) -/

/-- The `ARecord` SDK model: the one field the module reads (`ipv4_address`). -/
structure ARecord where
  ipv4_address : String
deriving DecidableEq, Repr

/-- The `SrvRecord` SDK model: the fields the module reads. -/
structure SrvRecord where
  priority : Int
  weight : Int
  port : Int
  target : String
deriving DecidableEq, Repr

/-- The `_check_a_record_exist`: scan the existing list for an equal
`ipv4_address`. -/
def _check_a_record_exist (record : ARecord) : List ARecord → Bool
  | [] => false
  | r :: rest =>
    if r.ipv4_address = record.ipv4_address then true
    else _check_a_record_exist record rest

/-- The `_check_srv_record_exist`: scan the existing list for equal
`priority`, `weight`, `port` and `target`. -/
def _check_srv_record_exist (record : SrvRecord) : List SrvRecord → Bool
  | [] => false
  | r :: rest =>
    if r.priority = record.priority ∧ r.weight = record.weight ∧
        r.port = record.port ∧ r.target = record.target then true
    else _check_srv_record_exist record rest

/-- The `_add_record` for list-typed record properties (`is_list=True`): read
the record list (an absent one is initialised to `[]`), and append the
record unless the record type's `_check_..._record_exist` scan (selected by
`_record_exist_func`, here the `record_exist` argument) already finds
it. -/
def _add_record (record_list : Option (List α)) (record : α)
    (record_exist : α → List α → Bool) : List α :=
  let l := record_list.getD []
  if record_exist record l then l else l ++ [record]

theorem check_a_record_exist_iff (record : ARecord) (l : List ARecord) :
    _check_a_record_exist record l = true ↔
      ∃ r ∈ l, r.ipv4_address = record.ipv4_address := by
  induction l with
  | nil => simp [_check_a_record_exist]
  | cons r rest ih =>
    rw [_check_a_record_exist]
    by_cases h : r.ipv4_address = record.ipv4_address
    · simp [h]
    · simp only [if_neg h, ih]
      constructor
      · rintro ⟨x, hx, hfield⟩
        exact ⟨x, List.mem_cons_of_mem r hx, hfield⟩
      · rintro ⟨x, hx, hfield⟩
        rcases List.mem_cons.mp hx with rfl | hx
        · exact absurd hfield h
        · exact ⟨x, hx, hfield⟩

theorem check_srv_record_exist_iff (record : SrvRecord) (l : List SrvRecord) :
    _check_srv_record_exist record l = true ↔
      ∃ r ∈ l, r.priority = record.priority ∧ r.weight = record.weight ∧
        r.port = record.port ∧ r.target = record.target := by
  induction l with
  | nil => simp [_check_srv_record_exist]
  | cons r rest ih =>
    rw [_check_srv_record_exist]
    by_cases h : r.priority = record.priority ∧ r.weight = record.weight ∧
        r.port = record.port ∧ r.target = record.target
    · simp [h]
    · simp only [if_neg h, ih]
      constructor
      · rintro ⟨x, hx, hfield⟩
        exact ⟨x, List.mem_cons_of_mem r hx, hfield⟩
      · rintro ⟨x, hx, hfield⟩
        rcases List.mem_cons.mp hx with rfl | hx
        · exact absurd hfield h
        · exact ⟨x, hx, hfield⟩

/-- C9: adding a DNS record whose identifying fields already occur in the
list leaves the list unchanged, and `_add_record` is idempotent — shown for
A records (identified by `ipv4_address`) and SRV records (identified by
`priority`, `weight`, `port`, `target`). -/
theorem add_record_idempotent :
    (∀ (record_list : Option (List ARecord)) (record : ARecord),
      ((∃ r ∈ record_list.getD [], r.ipv4_address = record.ipv4_address) →
        _add_record record_list record _check_a_record_exist =
          record_list.getD []) ∧
      _add_record (some (_add_record record_list record _check_a_record_exist))
          record _check_a_record_exist =
        _add_record record_list record _check_a_record_exist) ∧
    (∀ (record_list : Option (List SrvRecord)) (record : SrvRecord),
      ((∃ r ∈ record_list.getD [], r.priority = record.priority ∧
          r.weight = record.weight ∧ r.port = record.port ∧
          r.target = record.target) →
        _add_record record_list record _check_srv_record_exist =
          record_list.getD []) ∧
      _add_record (some (_add_record record_list record _check_srv_record_exist))
          record _check_srv_record_exist =
        _add_record record_list record _check_srv_record_exist) := by
  constructor
  · intro record_list record
    constructor
    · intro hex
      have hc : _check_a_record_exist record (record_list.getD []) = true :=
        (check_a_record_exist_iff record _).mpr hex
      simp [_add_record, hc]
    · by_cases hc : _check_a_record_exist record (record_list.getD []) = true
      · simp [_add_record, hc]
      · have hc' : _check_a_record_exist record
            (record_list.getD [] ++ [record]) = true :=
          (check_a_record_exist_iff record _).mpr
            ⟨record, by simp, rfl⟩
        simp [_add_record, hc, hc']
  · intro record_list record
    constructor
    · intro hex
      have hc : _check_srv_record_exist record (record_list.getD []) = true :=
        (check_srv_record_exist_iff record _).mpr hex
      simp [_add_record, hc]
    · by_cases hc : _check_srv_record_exist record (record_list.getD []) = true
      · simp [_add_record, hc]
      · have hc' : _check_srv_record_exist record
            (record_list.getD [] ++ [record]) = true :=
          (check_srv_record_exist_iff record _).mpr
            ⟨record, by simp, rfl, rfl, rfl, rfl⟩
        simp [_add_record, hc, hc']

/-- Witness for C9: adding an already-present A record to a concrete list
leaves the list unchanged. -/
theorem add_record_idempotent_witness :
    _add_record (some [ARecord.mk "10.0.0.4", ARecord.mk "10.0.0.5"])
        (ARecord.mk "10.0.0.4") _check_a_record_exist =
      [ARecord.mk "10.0.0.4", ARecord.mk "10.0.0.5"] :=
  (add_record_idempotent.1 (some [ARecord.mk "10.0.0.4", ARecord.mk "10.0.0.5"])
      (ARecord.mk "10.0.0.4")).1 ⟨ARecord.mk "10.0.0.4", by decide, rfl⟩

/-! ## WAF managed rule set removal (C5) -/

/-- The `ManagedRuleGroupOverride` model: the fields the handler reads. -/
structure RuleGroupOverride where
  rule_group_name : String
  rules : List String
deriving DecidableEq, Repr

/-- The `ManagedRuleSet` model: type, version and the group overrides. -/
structure ManagedRuleSet where
  rule_set_type : String
  rule_set_version : String
  rule_group_overrides : List RuleGroupOverride
deriving DecidableEq, Repr

/-- The `ResourceNotFoundError` raised when a named rule group is absent. -/
inductive WafError where
  | resourceNotFound
deriving DecidableEq, Repr

/-- The inner loop of `remove_waf_managed_rule_set` over
`rule_set.rule_group_overrides`: drop the first override named
`rule_group_name` (tracked by the `is_removed` flag), keep the rest; the
returned flag reports whether anything was dropped. -/
def removeOverrideLoop (rule_group_name : String) (is_removed : Bool) :
    List RuleGroupOverride → Bool × List RuleGroupOverride
  | [] => (is_removed, [])
  | rg :: rest =>
    if rg.rule_group_name = rule_group_name ∧ is_removed = false then
      removeOverrideLoop rule_group_name true rest
    else
      let (b, l) := removeOverrideLoop rule_group_name is_removed rest
      (b, rg :: l)

/-- The `remove_waf_managed_rule_set`'s `pre_instance_update` on the policy's
`managed_rule_sets`: scan the rule sets; a rule set matches when its type
equals `rule_set_type` OR its version equals `rule_set_version` (this is
the `or` in the source).  With `rule_group_name` absent the first match is
marked for deletion (`break`) and afterwards every rule set equal to it is
dropped; with a `rule_group_name` every matching rule set loses its first
override of that name, and `ResourceNotFoundError` is raised when a
matching rule set has none. -/
def WAFManagedRuleSetRemove_pre_instance_update (rule_set_type : String)
    (rule_set_version : String) (rule_group_name : Option String)
    (managed_rule_sets : List ManagedRuleSet) :
    Except WafError (List ManagedRuleSet) :=
  match rule_group_name with
  | Option.none =>
    match managed_rule_sets.find? (fun rs => rs.rule_set_type == rule_set_type
        || rs.rule_set_version == rule_set_version) with
    | Option.none => Except.ok managed_rule_sets
    | some delete_rule_set =>
      Except.ok (managed_rule_sets.filter (fun rs => rs != delete_rule_set))
  | some g =>
    managed_rule_sets.mapM (fun rs =>
      if rs.rule_set_type == rule_set_type
          || rs.rule_set_version == rule_set_version then
        match removeOverrideLoop g false rs.rule_group_overrides with
        | (false, _) => Except.error WafError.resourceNotFound
        | (true, new_overrides) =>
          Except.ok { rs with rule_group_overrides := new_overrides }
      else Except.ok rs)

/-- C5 counterexample: a policy holding the single managed rule set
`OWASP/3.0`, asked to remove type `OWASP` version `2.2` with no rule group
name.  The claim says the rule set must remain (its version differs from
the requested one); the code deletes it, because the source matches with
`rule_set_type == ... or rule_set_version == ...`. -/
theorem remove_waf_managed_rule_set_or_match_counterexample :
    WAFManagedRuleSetRemove_pre_instance_update "OWASP" "2.2" Option.none
        [⟨"OWASP", "3.0", []⟩] = Except.ok [] ∧
    ("3.0" : String) ≠ "2.2" :=
  ⟨rfl, by decide⟩

/-- C5 (amended): with `rule_group_name` omitted the update never raises;
when no rule set's type equals the given type and no rule set's version
equals the given version, the policy is unchanged; otherwise the first such
rule set is removed (together with any rule set equal to it), and every
rule set whose type and version both differ from the given ones remains,
in order. -/
theorem remove_waf_managed_rule_set_amended (t v : String)
    (sets : List ManagedRuleSet) :
    ∃ out, WAFManagedRuleSetRemove_pre_instance_update t v Option.none sets =
        Except.ok out ∧
      ((∀ rs ∈ sets, rs.rule_set_type ≠ t ∧ rs.rule_set_version ≠ v) →
        out = sets) ∧
      (∀ d, sets.find? (fun rs => rs.rule_set_type == t
          || rs.rule_set_version == v) = some d → d ∉ out) ∧
      (out.filter (fun rs => rs.rule_set_type != t && rs.rule_set_version != v)
        = sets.filter (fun rs => rs.rule_set_type != t
            && rs.rule_set_version != v)) := by
  unfold WAFManagedRuleSetRemove_pre_instance_update
  cases hfind : sets.find? (fun rs => rs.rule_set_type == t
      || rs.rule_set_version == v) with
  | none =>
    exact ⟨sets, rfl, fun _ => rfl, fun d hd => by simp [hfind] at hd, rfl⟩
  | some d =>
    have hd_mem : d ∈ sets := List.mem_of_find?_eq_some hfind
    have hd_match : (d.rule_set_type == t || d.rule_set_version == v) = true := by
      have h := List.find?_some hfind
      simpa using h
    refine ⟨sets.filter (fun rs => rs != d), rfl, ?_, ?_, ?_⟩
    · intro hall
      have := hall d hd_mem
      rcases Bool.or_eq_true_iff.mp hd_match with h | h
      · exact absurd (beq_iff_eq.mp h) this.1
      · exact absurd (beq_iff_eq.mp h) this.2
    · intro d' hd'
      injection hd' with hdd
      subst hdd
      intro hmem
      have := (List.mem_filter.mp hmem).2
      simp at this
    · rw [List.filter_filter]
      congr 1
      funext rs
      by_cases hb : (rs.rule_set_type != t && rs.rule_set_version != v) = true
      · have hne : (rs != d) = true := by
          rcases Bool.and_eq_true_iff.mp hb with ⟨h1, h2⟩
          have h1' : rs.rule_set_type ≠ t := by simpa using h1
          have h2' : rs.rule_set_version ≠ v := by simpa using h2
          have : rs ≠ d := by
            intro hrd
            subst hrd
            rcases Bool.or_eq_true_iff.mp hd_match with h | h
            · exact h1' (beq_iff_eq.mp h)
            · exact h2' (beq_iff_eq.mp h)
          simpa using this
        simp [hb, hne]
      · have hb' : (rs.rule_set_type != t && rs.rule_set_version != v) = false :=
          Bool.not_eq_true _ ▸ Bool.of_not_eq_true hb
        rw [hb']
        simp

/-- Witness for the amended C5: a policy whose sole rule set matches
neither component is left unchanged. -/
theorem remove_waf_managed_rule_set_amended_witness :
    ∃ out, WAFManagedRuleSetRemove_pre_instance_update "Microsoft_BotManagerRuleSet"
        "1.0" Option.none [⟨"OWASP", "3.2", []⟩] = Except.ok out ∧
      out = [⟨"OWASP", "3.2", []⟩] := by
  obtain ⟨out, hok, hunch, -, -⟩ :=
    remove_waf_managed_rule_set_amended "Microsoft_BotManagerRuleSet" "1.0"
      [⟨"OWASP", "3.2", []⟩]
  exact ⟨out, hok, hunch (by decide)⟩

/-! ## Network Watcher flow log creation (C4) -/

/-- The `RetentionPolicyParameters` SDK model. -/
structure RetentionPolicy where
  days : Int
  enabled : Bool
deriving DecidableEq, Repr

/-- The `FlowLogFormatParameters` SDK model. -/
structure FlowLogFormat where
  type : Option String
  version : Option String
deriving DecidableEq, Repr

/-- The fields `create_nw_flow_log` reads from the ARM resource returned by
`get_arm_resource_by_id` for the traffic-analytics workspace. -/
structure ArmWorkspace where
  customer_id : String
  location : String
  id : String
deriving DecidableEq, Repr

/-- The `TrafficAnalyticsConfigurationProperties` SDK model. -/
structure TrafficAnalyticsConfig where
  enabled : Option Bool
  workspace_id : String
  workspace_region : String
  workspace_resource_id : String
  traffic_analytics_interval : Int
deriving DecidableEq, Repr

/-- The `FlowLog` SDK model, as assembled by `create_nw_flow_log`. -/
structure FlowLog where
  location : Option String
  target_resource_id : Option String
  storage_id : Option String
  enabled : Option Bool
  tags : Option String
  retention_policy : Option RetentionPolicy
  format : Option FlowLogFormat
  flow_analytics_configuration : Option TrafficAnalyticsConfig
deriving DecidableEq, Repr

/-- Failure modes of `create_nw_flow_log`: the two azclierror types it
raises on bad arguments, the `CLIError` for an unresolvable workspace, and
the Python `NameError` that reading an unassigned `flow_log` would give
(shown unreachable below). -/
inductive FlowLogError where
  | requiredArgumentMissing
  | mutuallyExclusiveArgument
  | workspaceCliError
  | nameError
deriving DecidableEq, Repr

/-- Python truthiness of an optional CLI string argument — `bool(x)`:
`None` and the empty string are falsy. -/
def pyTruthyStr : Option String → Bool
  | Option.none => false
  | some s => !s.isEmpty

/-- The `create_nw_flow_log`: validate the target arguments (`sum(map(bool,
...))` checks), pick the target by the source's `is not None` ladder
(subnet, then vnet, then nic, then nsg), then decorate the `FlowLog` with
retention, format and — when a workspace argument is given — the
traffic-analytics configuration built from the remote lookup result (the
`workspace` argument stands for `get_arm_resource_by_id`'s return value).
Identifier-only parameters (watcher/resource names) are omitted. -/
def create_nw_flow_log (location : Option String)
    (nsg vnet subnet nic : Option String) (storage_account : Option String)
    (enabled : Option Bool) (retention : Int)
    (log_format log_version : Option String)
    (traffic_analytics_workspace : Option String)
    (workspace : Option ArmWorkspace) (traffic_analytics_interval : Int)
    (traffic_analytics_enabled : Option Bool) (tags : Option String) :
    Except FlowLogError FlowLog :=
  if ([vnet, subnet, nic, nsg].map pyTruthyStr).count true = 0 then
    Except.error FlowLogError.requiredArgumentMissing
  else if 1 < ([vnet, nic, nsg].map pyTruthyStr).count true then
    Except.error FlowLogError.mutuallyExclusiveArgument
  else
    let mkLog : Option String → FlowLog := fun target =>
      { location := location, target_resource_id := target,
        storage_id := storage_account, enabled := enabled, tags := tags,
        retention_policy := Option.none, format := Option.none,
        flow_analytics_configuration := Option.none }
    match
      (if subnet.isSome then some (mkLog subnet)
       else if vnet.isSome && subnet.isNone then some (mkLog vnet)
       else if nic.isSome then some (mkLog nic)
       else if nsg.isSome then some (mkLog nsg)
       else Option.none)
    with
    | Option.none => Except.error FlowLogError.nameError
    | some flow_log0 =>
      let flow_log1 :=
        if 0 < retention then
          let retention_policy := RetentionPolicy.mk retention (decide (0 < retention))
          { flow_log0 with retention_policy := some retention_policy }
        else flow_log0
      let flow_log2 :=
        if log_format.isSome || log_version.isSome then
          let format_config := FlowLogFormat.mk log_format log_version
          { flow_log1 with format := some format_config }
        else flow_log1
      match traffic_analytics_workspace with
      | Option.none => Except.ok flow_log2
      | some _ =>
        match workspace with
        | Option.none => Except.error FlowLogError.workspaceCliError
        | some w =>
          let traffic_analytics_config :=
            TrafficAnalyticsConfig.mk traffic_analytics_enabled w.customer_id
              w.location w.id traffic_analytics_interval
          Except.ok { flow_log2 with flow_analytics_configuration := some traffic_analytics_config }

theorem count4_eq_zero_iff (a b c d : Bool) :
    ([a, b, c, d].count true = 0) ↔
      (a = false ∧ b = false ∧ c = false ∧ d = false) := by
  cases a <;> cases b <;> cases c <;> cases d <;> decide

/-- C4 counterexample: `subnet` supplied as the empty string (all other
targets omitted).  The claim says `RequiredArgumentMissingError` is raised
only when none of the four targets is supplied; the code raises it here,
because the presence check uses Python truthiness, for which the supplied
empty string counts as absent. -/
theorem create_nw_flow_log_empty_subnet_counterexample :
    (some "" ≠ (Option.none : Option String)) ∧
    create_nw_flow_log Option.none Option.none Option.none (some "")
        Option.none Option.none Option.none 0 Option.none Option.none
        Option.none Option.none 60 Option.none Option.none =
      Except.error FlowLogError.requiredArgumentMissing :=
  ⟨by decide, rfl⟩

theorem create_nw_flow_log_eval (location : Option String)
    (nsg vnet subnet nic : Option String) (storage_account : Option String)
    (enabled : Option Bool) (retention : Int)
    (log_format log_version : Option String)
    (traffic_analytics_workspace : Option String)
    (workspace : Option ArmWorkspace) (traffic_analytics_interval : Int)
    (traffic_analytics_enabled : Option Bool) (tags : Option String)
    (h0 : ¬ ([vnet, subnet, nic, nsg].map pyTruthyStr).count true = 0)
    (h1 : ¬ 1 < ([vnet, nic, nsg].map pyTruthyStr).count true) :
    create_nw_flow_log location nsg vnet subnet nic storage_account enabled
        retention log_format log_version traffic_analytics_workspace workspace
        traffic_analytics_interval traffic_analytics_enabled tags =
      (let target := if subnet.isSome then subnet
         else if vnet.isSome then vnet
         else if nic.isSome then nic
         else nsg
       let fl0 : FlowLog :=
         { location := location, target_resource_id := target,
           storage_id := storage_account, enabled := enabled, tags := tags,
           retention_policy := Option.none, format := Option.none,
           flow_analytics_configuration := Option.none }
       let fl1 := if 0 < retention then
           let retention_policy := RetentionPolicy.mk retention (decide (0 < retention))
           { fl0 with retention_policy := some retention_policy }
         else fl0
       let fl2 := if log_format.isSome || log_version.isSome then
           let format_config := FlowLogFormat.mk log_format log_version
           { fl1 with format := some format_config }
         else fl1
       match traffic_analytics_workspace, workspace with
       | Option.none, _ => Except.ok fl2
       | some _, Option.none => Except.error FlowLogError.workspaceCliError
       | some _, some w =>
         let traffic_analytics_config :=
           TrafficAnalyticsConfig.mk traffic_analytics_enabled w.customer_id
             w.location w.id traffic_analytics_interval
         Except.ok { fl2 with flow_analytics_configuration := some traffic_analytics_config }) := by
  unfold create_nw_flow_log
  rw [if_neg h0, if_neg h1]
  by_cases hsub : subnet.isSome = true
  · cases traffic_analytics_workspace <;> cases workspace <;> simp [hsub]
  · have hsubn : subnet = Option.none :=
      Option.not_isSome_iff_eq_none.mp (by simpa using hsub)
    by_cases hv : vnet.isSome = true
    · cases traffic_analytics_workspace <;> cases workspace <;> simp [hsubn, hv]
    · have hvn : vnet = Option.none :=
        Option.not_isSome_iff_eq_none.mp (by simpa using hv)
      by_cases hn : nic.isSome = true
      · cases traffic_analytics_workspace <;> cases workspace <;>
          simp [hsubn, hvn, hn]
      · have hnn : nic = Option.none :=
          Option.not_isSome_iff_eq_none.mp (by simpa using hn)
        by_cases hg : nsg.isSome = true
        · cases traffic_analytics_workspace <;> cases workspace <;>
            simp [hsubn, hvn, hnn, hg]
        · have hgn : nsg = Option.none :=
            Option.not_isSome_iff_eq_none.mp (by simpa using hg)
          exact absurd (by simp [hsubn, hvn, hnn, hgn, pyTruthyStr]) h0

/-- C4 (amended): `RequiredArgumentMissingError` iff none of the four
targets has a truthy (non-None, nonempty) value; `MutuallyExclusiveArgumentError`
iff that check passes and more than one of vnet/nic/nsg is truthy; the
unassigned-variable `NameError` is unreachable; the only further local
error is the `CLIError` raised when a traffic-analytics workspace argument
is given but its remote lookup yields nothing; on success the submitted
`FlowLog`'s target is subnet when passed (by `is not None`), else vnet,
else nic, else nsg. -/
theorem create_nw_flow_log_amended (location : Option String)
    (nsg vnet subnet nic : Option String) (storage_account : Option String)
    (enabled : Option Bool) (retention : Int)
    (log_format log_version : Option String)
    (traffic_analytics_workspace : Option String)
    (workspace : Option ArmWorkspace) (traffic_analytics_interval : Int)
    (traffic_analytics_enabled : Option Bool) (tags : Option String) :
    (create_nw_flow_log location nsg vnet subnet nic storage_account enabled
        retention log_format log_version traffic_analytics_workspace workspace
        traffic_analytics_interval traffic_analytics_enabled tags =
          Except.error FlowLogError.requiredArgumentMissing ↔
      (pyTruthyStr vnet = false ∧ pyTruthyStr subnet = false ∧
        pyTruthyStr nic = false ∧ pyTruthyStr nsg = false)) ∧
    (create_nw_flow_log location nsg vnet subnet nic storage_account enabled
        retention log_format log_version traffic_analytics_workspace workspace
        traffic_analytics_interval traffic_analytics_enabled tags =
          Except.error FlowLogError.mutuallyExclusiveArgument ↔
      (¬(pyTruthyStr vnet = false ∧ pyTruthyStr subnet = false ∧
          pyTruthyStr nic = false ∧ pyTruthyStr nsg = false) ∧
        1 < ([vnet, nic, nsg].map pyTruthyStr).count true)) ∧
    (create_nw_flow_log location nsg vnet subnet nic storage_account enabled
        retention log_format log_version traffic_analytics_workspace workspace
        traffic_analytics_interval traffic_analytics_enabled tags ≠
          Except.error FlowLogError.nameError) ∧
    (create_nw_flow_log location nsg vnet subnet nic storage_account enabled
        retention log_format log_version traffic_analytics_workspace workspace
        traffic_analytics_interval traffic_analytics_enabled tags =
          Except.error FlowLogError.workspaceCliError ↔
      (¬(pyTruthyStr vnet = false ∧ pyTruthyStr subnet = false ∧
          pyTruthyStr nic = false ∧ pyTruthyStr nsg = false) ∧
        ¬(1 < ([vnet, nic, nsg].map pyTruthyStr).count true) ∧
        traffic_analytics_workspace.isSome = true ∧
        workspace = Option.none)) ∧
    (∀ fl, create_nw_flow_log location nsg vnet subnet nic storage_account
        enabled retention log_format log_version traffic_analytics_workspace
        workspace traffic_analytics_interval traffic_analytics_enabled tags =
          Except.ok fl →
      fl.target_resource_id =
        (if subnet.isSome then subnet
         else if vnet.isSome then vnet
         else if nic.isSome then nic
         else nsg)) := by
  have hiff : ([vnet, subnet, nic, nsg].map pyTruthyStr).count true = 0 ↔
      (pyTruthyStr vnet = false ∧ pyTruthyStr subnet = false ∧
        pyTruthyStr nic = false ∧ pyTruthyStr nsg = false) := by
    simpa using count4_eq_zero_iff (pyTruthyStr vnet) (pyTruthyStr subnet)
      (pyTruthyStr nic) (pyTruthyStr nsg)
  by_cases h0 : ([vnet, subnet, nic, nsg].map pyTruthyStr).count true = 0
  · have hall := hiff.mp h0
    have hres : create_nw_flow_log location nsg vnet subnet nic storage_account
        enabled retention log_format log_version traffic_analytics_workspace
        workspace traffic_analytics_interval traffic_analytics_enabled tags =
          Except.error FlowLogError.requiredArgumentMissing := by
      unfold create_nw_flow_log
      rw [if_pos h0]
    rw [hres]
    refine ⟨by simp [hall], ?_, by simp, ?_, by simp⟩
    · constructor
      · intro h
        exact absurd h (by simp)
      · rintro ⟨hna, -⟩
        exact absurd hall hna
    · constructor
      · intro h
        exact absurd h (by simp)
      · rintro ⟨hna, -⟩
        exact absurd hall hna
  · have hnall : ¬(pyTruthyStr vnet = false ∧ pyTruthyStr subnet = false ∧
        pyTruthyStr nic = false ∧ pyTruthyStr nsg = false) :=
      fun hall => h0 (hiff.mpr hall)
    by_cases h1 : 1 < ([vnet, nic, nsg].map pyTruthyStr).count true
    · have hres : create_nw_flow_log location nsg vnet subnet nic
          storage_account enabled retention log_format log_version
          traffic_analytics_workspace workspace traffic_analytics_interval
          traffic_analytics_enabled tags =
            Except.error FlowLogError.mutuallyExclusiveArgument := by
        unfold create_nw_flow_log
        rw [if_neg h0, if_pos h1]
      rw [hres]
      refine ⟨?_, ?_, by simp, ?_, by simp⟩
      · constructor
        · intro h
          exact absurd h (by simp)
        · intro hall
          exact absurd hall hnall
      · constructor
        · intro h
          exact ⟨hnall, h1⟩
        · intro h
          rfl
      · constructor
        · intro h
          exact absurd h (by simp)
        · rintro ⟨-, hn1, -, -⟩
          exact absurd h1 hn1
    · have h1le : List.count true [pyTruthyStr vnet, pyTruthyStr nic,
          pyTruthyStr nsg] ≤ 1 := by
        simpa [Nat.not_lt] using h1
      rw [create_nw_flow_log_eval location nsg vnet subnet nic storage_account
        enabled retention log_format log_version traffic_analytics_workspace
        workspace traffic_analytics_interval traffic_analytics_enabled tags
        h0 h1]
      cases traffic_analytics_workspace with
      | none =>
        refine ⟨by simp [hnall], by simp [h1le], by simp, by simp, ?_⟩
        intro fl hfl
        simp only [Except.ok.injEq] at hfl
        subst hfl
        split <;> split <;> rfl
      | some taw =>
        cases workspace with
        | none =>
          exact ⟨by simp [hnall], by simp [h1le], by simp,
            by simp [hnall, h1le], by simp⟩
        | some w =>
          refine ⟨by simp [hnall], by simp [h1le], by simp, by simp, ?_⟩
          intro fl hfl
          simp only [Except.ok.injEq] at hfl
          subst hfl
          split <;> split <;> rfl

/-- Witness for the amended C4: with only `nsg` supplied (nonempty), the
call succeeds and targets the nsg. -/
theorem create_nw_flow_log_amended_witness :
    ∃ fl, create_nw_flow_log Option.none (some "nsg1") Option.none Option.none
        Option.none (some "sa") Option.none 0 Option.none Option.none
        Option.none Option.none 60 Option.none Option.none = Except.ok fl ∧
      fl.target_resource_id = some "nsg1" := by
  refine ⟨_, rfl, ?_⟩
  have h := (create_nw_flow_log_amended Option.none (some "nsg1") Option.none
    Option.none Option.none (some "sa") Option.none 0 Option.none Option.none
    Option.none Option.none 60 Option.none Option.none).2.2.2.2 _ rfl
  simpa using h

/-! ## DNS record removal (C7) -/

/-- Python values as they occur in DNS record `__dict__`s: `None`, strings,
numbers, and flat lists of such atoms (TXT values). -/
inductive PyAtom where
  | none
  | str (s : String)
  | int (n : Int)
deriving DecidableEq, Repr

/-- A record attribute value: an atom or a list of atoms. -/
inductive PyVal where
  | atom (a : PyAtom)
  | list (xs : List PyAtom)
deriving DecidableEq, Repr

/-- A record's `__dict__`: attribute names to values (keys unique, as in a
Python dict). -/
abbrev PyDict := List (String × PyVal)

/-- Python truthiness of an attribute value. -/
def PyVal.truthy : PyVal → Bool
  | PyVal.atom PyAtom.none => false
  | PyVal.atom (PyAtom.str s) => !s.isEmpty
  | PyVal.atom (PyAtom.int n) => n != 0
  | PyVal.list xs => !xs.isEmpty

/-- Python `repr` of an atom, as used for list elements inside `str`. -/
def pyAtomRepr : PyAtom → String
  | PyAtom.none => "None"
  | PyAtom.str s => "'" ++ s ++ "'"
  | PyAtom.int n => toString n

/-- Python `str` of an attribute value. -/
def pyStr : PyVal → String
  | PyVal.atom PyAtom.none => "None"
  | PyVal.atom (PyAtom.str s) => s
  | PyVal.atom (PyAtom.int n) => toString n
  | PyVal.list xs => "[" ++ String.intercalate ", " (xs.map pyAtomRepr) ++ "]"

/-- The `d.get(key)`: first binding of `key`. -/
def pyGet (d : PyDict) (key : String) : Option PyVal :=
  (d.find? (fun kv => kv.1 == key)).map (fun kv => kv.2)

/-- What `collections.Counter` accepts: strings count their characters
(one-character strings), lists count their elements; `None` and numbers are
not iterable, so `Counter` raises `TypeError` (modelled as `none`). -/
def counterOf : PyVal → Option (List PyAtom)
  | PyVal.atom (PyAtom.str s) =>
    some (s.data.map (fun c => PyAtom.str (String.mk [c])))
  | PyVal.list xs => some xs
  | _ => Option.none

/-- The `Counter(l1) == Counter(l2)`: equal multiplicity for every element. -/
def counterEq (l1 l2 : List PyAtom) : Bool :=
  (l1 ++ l2).all (fun a => l1.count a == l2.count a)

/-- The `lists_match`: `Counter(l1) == Counter(l2)`, with `TypeError` caught as
`False`. -/
def lists_match (l1 l2 : PyVal) : Bool :=
  match counterOf l1, counterOf l2 with
  | some c1, some c2 => counterEq c1 c2
  | _, _ => false

/-- The `dict_matches_filter(d, filter_dict)`: for every key of the filter, the
filter value is falsy (an unpopulated field), or its `str` equals the `str`
of `d`'s value (a missing key yields the never-equal sentinel), or the two
values match as lists with `d` defaulting to `[]`. -/
def dict_matches_filter (d filter_dict : PyDict) : Bool :=
  filter_dict.all (fun kv =>
    !kv.2.truthy ||
    (match pyGet d kv.1 with
     | some v => pyStr kv.2 == pyStr v
     | Option.none => false) ||
    lists_match kv.2 ((pyGet d kv.1).getD (PyVal.list [])))

/-- Outcome of `_remove_record`: the `CLIError` raise, the Python
`TypeError` from `len(None)`, a `ncf.delete` submission, or a
`ncf.create_or_update` submission carrying the new value of the record
list property.  The two error outcomes submit nothing. -/
inductive RemoveOutcome where
  | errCLI
  | errType
  | deleted
  | updated (remaining : Option (List PyDict))
deriving DecidableEq, Repr

/-- The `_remove_record`: on a list-typed property, keep the records that do
not match the given record's populated fields, raising `CLIError` when
nothing matched; afterwards delete the whole record set when no record
remains and `keep_empty_record_set` is unset, else resubmit it.  The
`record_list` argument stands for `getattr(record_set, record_property)`
of the fetched record set; when it is `None` and `is_list` is set, the
source's `len(...)` call fails with `TypeError`. -/
def _remove_record (record : PyDict) (record_list : Option (List PyDict))
    (keep_empty_record_set : Bool) (is_list : Bool) : RemoveOutcome :=
  if is_list then
    match record_list with
    | Option.none => RemoveOutcome.errType
    | some l =>
      let keep_list := l.filter (fun r => !dict_matches_filter r record)
      if keep_list.length = l.length then RemoveOutcome.errCLI
      else if keep_list.length = 0 && !keep_empty_record_set then
        RemoveOutcome.deleted
      else RemoveOutcome.updated (some keep_list)
  else
    if !keep_empty_record_set then RemoveOutcome.deleted
    else RemoveOutcome.updated Option.none

/-- C7 counterexample: the fetched record set's list property is `None`
(so no record matches the given record), yet the call fails with the
Python `TypeError` from `len(None)` rather than the claimed `CLIError`. -/
theorem remove_record_none_list_counterexample :
    _remove_record [("ipv4_address", PyVal.atom (PyAtom.str "1.2.3.4"))]
        Option.none false true = RemoveOutcome.errType ∧
    RemoveOutcome.errType ≠ RemoveOutcome.errCLI :=
  ⟨rfl, by decide⟩

/-- C7 (amended): provided the fetched record set's list property is
present, `_remove_record` raises `CLIError` — submitting neither an update
nor a delete — exactly when no existing record matches the given record's
populated fields; otherwise every matching record is removed and none
other, and the record set is deleted instead of resubmitted exactly when
the remaining list is empty and `keep_empty_record_set` is unset. -/
theorem remove_record_spec (record : PyDict) (l : List PyDict)
    (keep_empty_record_set : Bool) :
    ((∀ r ∈ l, dict_matches_filter r record = false) →
      _remove_record record (some l) keep_empty_record_set true =
        RemoveOutcome.errCLI) ∧
    (∀ r0 ∈ l, dict_matches_filter r0 record = true →
      _remove_record record (some l) keep_empty_record_set true =
        (if (l.filter (fun r => !dict_matches_filter r record)).length = 0
            && !keep_empty_record_set then
          RemoveOutcome.deleted
        else
          RemoveOutcome.updated
            (some (l.filter (fun r => !dict_matches_filter r record))))) := by
  constructor
  · intro hno
    have hfull : l.filter (fun r => !dict_matches_filter r record) = l := by
      apply List.filter_eq_self.mpr
      intro a ha
      simp [hno a ha]
    unfold _remove_record
    simp [hfull]
  · intro r0 hr0 hmatch
    have hlt : (l.filter (fun r => !dict_matches_filter r record)).length
        < l.length := by
      apply List.length_filter_lt_length_iff_exists.mpr
      exact ⟨r0, hr0, by simp [hmatch]⟩
    unfold _remove_record
    simp [Nat.ne_of_lt hlt]

/-- Witness for the amended C7: removing the sole A record of a record set
(with `keep_empty_record_set` unset) deletes the record set. -/
theorem remove_record_spec_witness :
    _remove_record [("ipv4_address", PyVal.atom (PyAtom.str "10.0.0.1"))]
        (some [[("ipv4_address", PyVal.atom (PyAtom.str "10.0.0.1"))]])
        false true = RemoveOutcome.deleted := by
  have h := (remove_record_spec
      [("ipv4_address", PyVal.atom (PyAtom.str "10.0.0.1"))]
      [[("ipv4_address", PyVal.atom (PyAtom.str "10.0.0.1"))]] false).2
    [("ipv4_address", PyVal.atom (PyAtom.str "10.0.0.1"))]
    (by decide) (by decide)
  simpa using h

/-! ## Bandwidth validation (C8) -/

/-- Python `s.split(sep)` for a one-character separator, on character
lists: split at every occurrence, keeping empty pieces. -/
def splitOnChar (sep : Char) : List Char → List (List Char)
  | [] => [[]]
  | c :: rest =>
    match splitOnChar sep rest with
    | [] => []
    | curr :: others =>
      if c = sep then [] :: curr :: others
      else (c :: curr) :: others

/-- Python `str.lower` on an ASCII character. -/
def pyLowerChar (c : Char) : Char :=
  if 'A' ≤ c && c ≤ 'Z' then Char.ofNat (c.toNat + 32) else c

/-- Value of a digit string. -/
def digitsVal (l : List Char) : Nat :=
  l.foldl (fun a c => a * 10 + (c.toNat - 48)) 0

/-- Modelled from Python's `float` builtin restricted to plain decimal
numerals — optional sign, digits, optional fractional part (this is the
shape bandwidth values take); other strings raise `ValueError`, modelled
as `none`.  This helper handles the unsigned part. -/
def pyFloatUnsigned? (s : List Char) : Option ℚ :=
  match s.dropWhile Char.isDigit with
  | [] =>
    if (s.takeWhile Char.isDigit).isEmpty then Option.none
    else some (digitsVal (s.takeWhile Char.isDigit) : ℚ)
  | '.' :: frac =>
    if frac.all Char.isDigit &&
        !((s.takeWhile Char.isDigit).isEmpty && frac.isEmpty) then
      some ((digitsVal (s.takeWhile Char.isDigit) : ℚ) +
        (digitsVal frac : ℚ) / ((10 : ℚ) ^ frac.length))
    else Option.none
  | _ => Option.none

/-- Modelled from Python's `float` builtin (see `pyFloatUnsigned?`): an
optional leading sign. -/
def pyFloat? (s : List Char) : Option ℚ :=
  match s with
  | '+' :: rest => pyFloatUnsigned? rest
  | '-' :: rest => (pyFloatUnsigned? rest).map (fun x => -x)
  | _ => pyFloatUnsigned? s

/-- Failure modes of `_validate_bandwidth`: the
`InvalidArgumentValueError` usage error it raises itself, the Python
`ValueError` from `float(...)` on a non-numeral, and the Python
`IndexError` from `bandwidth_comps[0]` on an empty list. -/
inductive BandwidthError where
  | usageError
  | valueError
  | indexError
deriving DecidableEq, Repr

/-- The `_validate_bandwidth`: `None` passes through; a single component is
split on spaces; a missing unit defaults to the expected one; more than
two components is a usage error; then the numeric value is converted
between Mbps and Gbps as the unit demands.  The `and` in
`if float(input_value) and input_unit in ...` makes a zero value fall
into the usage error. -/
def _validate_bandwidth (bandwidth : Option (List (List Char)))
    (mbps : Bool) : Except BandwidthError (Option ℚ) :=
  let unit : List Char := if mbps then ['m', 'b', 'p', 's'] else ['g', 'b', 'p', 's']
  match bandwidth with
  | Option.none => Except.ok Option.none
  | some bw =>
    let bandwidth_comps :=
      if bw.length = 1 then splitOnChar ' ' (bw.headD []) else bw
    let bandwidth_comps :=
      if bandwidth_comps.length = 1 then bandwidth_comps ++ [unit]
      else bandwidth_comps
    if 2 < bandwidth_comps.length then Except.error BandwidthError.usageError
    else
      match bandwidth_comps with
      | [] => Except.error BandwidthError.indexError
      | input_value :: rest =>
        let input_unit := (rest.headD []).map pyLowerChar
        match pyFloat? input_value with
        | Option.none => Except.error BandwidthError.valueError
        | some q =>
          if (q != 0) && (input_unit == ['m', 'b', 'p', 's']
              || input_unit == ['g', 'b', 'p', 's']) then
            if input_unit == unit then Except.ok (some q)
            else if input_unit == ['g', 'b', 'p', 's'] then
              Except.ok (some (q * 1000))
            else Except.ok (some (q / 1000))
          else Except.error BandwidthError.usageError

theorem splitOnChar_not_mem (sep : Char) (s : List Char) (h : sep ∉ s) :
    splitOnChar sep s = [s] := by
  induction s with
  | nil => rfl
  | cons c rest ih =>
    have hc : ¬ c = sep := fun e => h (e ▸ List.mem_cons_self c rest)
    have hr : sep ∉ rest := fun m => h (List.mem_cons_of_mem c m)
    rw [splitOnChar, ih hr]
    simp [hc]

theorem pyFloatUnsigned?_chars (s : List Char) (q : ℚ)
    (h : pyFloatUnsigned? s = some q) :
    ∀ c ∈ s, Char.isDigit c = true ∨ c = '.' := by
  intro c hc
  unfold pyFloatUnsigned? at h
  have hsplit : s.takeWhile Char.isDigit ++ s.dropWhile Char.isDigit = s :=
    List.takeWhile_append_dropWhile Char.isDigit s
  rcases List.mem_append.mp (hsplit ▸ hc) with h1 | h2
  · exact Or.inl (List.mem_takeWhile_imp h1)
  · split at h
    · next heq =>
      rw [heq] at h2
      cases h2
    · next frac heq =>
      rw [heq] at h2
      rcases List.mem_cons.mp h2 with rfl | hcf
      · exact Or.inr rfl
      · split at h
        · next hcond =>
          have hall := (Bool.and_eq_true_iff.mp hcond).1
          exact Or.inl (List.all_eq_true.mp hall c hcf)
        · exact absurd h (by simp)
    · exact absurd h (by simp)

theorem pyFloatUnsigned?_not_space (s : List Char) (q : ℚ)
    (h : pyFloatUnsigned? s = some q) : ' ' ∉ s := by
  intro hmem
  rcases pyFloatUnsigned?_chars s q h ' ' hmem with hd | hdot
  · exact absurd hd (by decide)
  · exact absurd hdot (by decide)

theorem pyFloat?_not_space (s : List Char) (q : ℚ)
    (h : pyFloat? s = some q) : ' ' ∉ s := by
  unfold pyFloat? at h
  split at h
  · next rest =>
    intro hmem
    rcases List.mem_cons.mp hmem with he | hr
    · exact absurd he (by decide)
    · exact pyFloatUnsigned?_not_space rest q h hr
  · next rest =>
    intro hmem
    obtain ⟨q0, hq0, -⟩ := Option.map_eq_some'.mp h
    rcases List.mem_cons.mp hmem with he | hr
    · exact absurd he (by decide)
    · exact pyFloatUnsigned?_not_space rest q0 hq0 hr
  · intro hmem
    exact pyFloatUnsigned?_not_space _ q h hmem

/-- C8 counterexample: the bandwidth `"0"` (unit defaulting to the
expected Mbps).  The claim says a matching (defaulted) unit returns the
number unchanged, i.e. `0`; the code raises
`InvalidArgumentValueError`, because `float('0')` is falsy in the
source's `if float(input_value) and ...` check. -/
theorem validate_bandwidth_zero_counterexample :
    _validate_bandwidth (some [['0']]) true =
      Except.error BandwidthError.usageError ∧
    Except.error BandwidthError.usageError ≠
      (Except.ok (some (0 : ℚ)) : Except BandwidthError (Option ℚ)) := by
  refine ⟨rfl, ?_⟩
  intro h
  exact Except.noConfusion h

/-- C8 (amended): for every nonzero decimal value, `None` returns `None`;
a matching unit (given in either case, or defaulted when missing) returns
the value unchanged; `Gbps` against expected Mbps multiplies by 1000;
`Mbps` against expected Gbps divides by 1000; more than two components or
a unit other than Mbps/Gbps is an `InvalidArgumentValueError`; and a
zero value is an `InvalidArgumentValueError` as well. -/
theorem validate_bandwidth_amended (v : List Char) (q : ℚ)
    (hv : pyFloat? v = some q) (hq : q ≠ 0) :
    (_validate_bandwidth Option.none true = Except.ok Option.none) ∧
    (_validate_bandwidth Option.none false = Except.ok Option.none) ∧
    (_validate_bandwidth (some [v, ['M', 'b', 'p', 's']]) true =
      Except.ok (some q)) ∧
    (_validate_bandwidth (some [v, ['G', 'b', 'p', 's']]) false =
      Except.ok (some q)) ∧
    (_validate_bandwidth (some [v, ['G', 'b', 'p', 's']]) true =
      Except.ok (some (q * 1000))) ∧
    (_validate_bandwidth (some [v, ['M', 'b', 'p', 's']]) false =
      Except.ok (some (q / 1000))) ∧
    (_validate_bandwidth (some [v]) true = Except.ok (some q)) ∧
    (_validate_bandwidth (some [v]) false = Except.ok (some q)) ∧
    (_validate_bandwidth (some [v, ['M', 'b', 'p', 's'], ['x']]) true =
      Except.error BandwidthError.usageError) ∧
    (_validate_bandwidth (some [v, ['T', 'b', 'p', 's']]) true =
      Except.error BandwidthError.usageError) ∧
    (∀ w, pyFloat? w = some 0 →
      _validate_bandwidth (some [w, ['M', 'b', 'p', 's']]) true =
        Except.error BandwidthError.usageError) := by
  have hqb : (q != 0) = true := bne_iff_ne.mpr hq
  have hM : (['M', 'b', 'p', 's'].map pyLowerChar) = ['m', 'b', 'p', 's'] := by
    decide
  have hG : (['G', 'b', 'p', 's'].map pyLowerChar) = ['g', 'b', 'p', 's'] := by
    decide
  have hT : (['T', 'b', 'p', 's'].map pyLowerChar) = ['t', 'b', 'p', 's'] := by
    decide
  have hm : (['m', 'b', 'p', 's'].map pyLowerChar) = ['m', 'b', 'p', 's'] := by
    decide
  have hg : (['g', 'b', 'p', 's'].map pyLowerChar) = ['g', 'b', 'p', 's'] := by
    decide
  have hsplit : splitOnChar ' ' v = [v] :=
    splitOnChar_not_mem ' ' v (pyFloat?_not_space v q hv)
  refine ⟨rfl, rfl, ?_, ?_, ?_, ?_, ?_, ?_, ?_, ?_, ?_⟩
  · simp [_validate_bandwidth, hv, hqb, hM]
  · simp [_validate_bandwidth, hv, hqb, hG]
  · simp [_validate_bandwidth, hv, hqb, hG]
  · simp [_validate_bandwidth, hv, hqb, hM]
  · simp [_validate_bandwidth, hsplit, hv, hqb, hm]
  · simp [_validate_bandwidth, hsplit, hv, hqb, hg]
  · simp [_validate_bandwidth]
  · simp [_validate_bandwidth, hv, hqb, hT]
  · intro w hw
    simp [_validate_bandwidth, hw]

/-- Witness for the amended C8: 25 Gbps against expected Mbps converts to
25000. -/
theorem validate_bandwidth_amended_witness :
    _validate_bandwidth (some [['2', '5'], ['G', 'b', 'p', 's']]) true =
      Except.ok (some ((25 : ℚ) * 1000)) :=
  (validate_bandwidth_amended ['2', '5'] 25 (by decide)
    (by norm_num)).2.2.2.2.1

end AzCliNetwork
